import Mathlib

/-!
Verification development for the BankBot message-routing and
conversation-state engine (`bankbot_app.py`).

The Python source is shallowly embedded: pure string helpers become Lean
functions on `String` (backed by `List Char`), the mutable Streamlit
session state becomes an explicit `AppState` record with an explicit heap
of message lists (Python lists are reference values: `save_chat` stores a
`.copy()`, the sidebar selection aliases the stored list), and the single
network call of the backend adapter is parameterised by the behaviour of
the external model service.
-/

namespace BankBot

/-! ### Python string primitives

Executable models of the Python builtins the source uses:
`str.lower`, the `in` substring test, `str.strip`, `str.replace`. -/

/-- `subAt pat l`: does `pat` occur as a prefix of `l`? (list-level). -/
def subAt : List Char → List Char → Bool
  | [], _ => true
  | _ :: _, [] => false
  | a :: as, b :: bs => a == b && subAt as bs

/-- `containsList pat l`: does `pat` occur as a contiguous sublist of `l`?
Models Python `pat in l` on strings (the empty pattern is contained in
every string). -/
def containsList (pat : List Char) : List Char → Bool
  | [] => pat.isEmpty
  | c :: rest => subAt pat (c :: rest) || containsList pat rest

/-- Python `needle in hay` for strings. -/
def containsSub (needle hay : String) : Bool :=
  containsList needle.data hay.data

/-- Python `str.lower` (the keyword sets in the source are ASCII, where
`Char.toLower` agrees with Python). -/
def pyLower (s : String) : String :=
  ⟨s.data.map Char.toLower⟩

/-- Python whitespace for `str.strip`: space, tab, newline, carriage
return, vertical tab, form feed. -/
def pyWhitespace (c : Char) : Bool :=
  c == ' ' || c == '\t' || c == '\n' || c == '\r' ||
    c == Char.ofNat 11 || c == Char.ofNat 12

/-- Python `str.strip` on the character list. -/
def stripList (l : List Char) : List Char :=
  ((l.dropWhile pyWhitespace).reverse.dropWhile pyWhitespace).reverse

/-- Python `str.strip`. -/
def pyStrip (s : String) : String :=
  ⟨stripList s.data⟩

/-- One left-to-right, non-overlapping replacement pass, as Python
`str.replace(pat, repl)` performs.  `fuel` bounds the recursion; at every
step at least one character of the input is consumed (the source only
replaces non-empty patterns), so `fuel = l.length` is always enough. -/
def replaceList (pat repl : List Char) : Nat → List Char → List Char
  | _, [] => []
  | 0, l => l
  | fuel + 1, c :: rest =>
    if subAt pat (c :: rest) then
      repl ++ replaceList pat repl fuel (List.drop pat.length (c :: rest))
    else
      c :: replaceList pat repl fuel rest

/-- Python `s.replace(pat, repl)`. -/
def pyReplace (s pat repl : String) : String :=
  ⟨replaceList pat.data repl.data s.data.length s.data⟩

/-! ### Classifier (`is_greeting`, `is_banking_related`, lines 46–56) -/

/-- The greeting keyword set of `is_greeting`. -/
def greetings : List String :=
  ["hi", "hello", "hey", "good morning", "good evening"]

/-- The banking-term set of `is_banking_related`. -/
def banking_terms : List String :=
  ["account", "loan", "emi", "interest",
   "card", "atm", "balance", "transaction",
   "ifsc", "branch", "bank"]

/-- `is_greeting` (line 46): any greeting keyword is a substring of the
lowercased message. -/
def is_greeting (message : String) : Bool :=
  greetings.any (fun word => containsSub word (pyLower message))

/-- `is_banking_related` (line 50): any banking term is a substring of the
lowercased message. -/
def is_banking_related (message : String) : Bool :=
  banking_terms.any (fun term => containsSub term (pyLower message))

/-- The three reply paths of `send_message` (lines 205–229), as the spec's
`classify` contract names them. -/
inductive Classification where
  | Greeting
  | BankingRelated
  | OffTopic
deriving DecidableEq, Repr

/-- The classification implicit in `send_message`'s branch order
(lines 206, 217, 228): greeting first, then banking-related, else
off-topic. -/
def classify (text : String) : Classification :=
  if is_greeting text then Classification.Greeting
  else if is_banking_related text then Classification.BankingRelated
  else Classification.OffTopic

/-! ### Backend Adapter (`get_ollama_response`, lines 83–122) -/

/-- The system persona instruction (lines 88–94). -/
def system_prompt : String :=
  "You are BankBot, a polite banking assistant.\n" ++
  "Answer only banking-related questions.\n" ++
  "Keep responses short and easy to read.\n" ++
  "Use bullet points when possible.\n" ++
  "Do not explain rules or instructions.\n"

/-- The full prompt template (lines 96–103): persona block, then the
customer question, then the answer anchor. -/
def full_prompt (user_question : String) : String :=
  "\n" ++ system_prompt ++ "\n\nCustomer Question:\n" ++ user_question ++
    "\n\nBankBot Answer:\n"

/-- The instruction fragments removed from the raw completion
(line 118). -/
def blocked_phrases : List String :=
  ["You are BankBot", "Answer only", "Customer Question"]

/-- The post-processing of lines 115–122 applied to the extracted
`response` field: replace each blocked phrase by the empty string in list
order, then strip leading/trailing whitespace. -/
def sanitize (raw : String) : String :=
  pyStrip (blocked_phrases.foldl (fun acc p => pyReplace acc p "") raw)

/-- The same post-processing written out as the spec describes it: plain
substring removal of the three literal fragments, then a whitespace
strip.  Used to compare the source's fold against the spec's words. -/
def sanitize_spec (raw : String) : String :=
  pyStrip (pyReplace (pyReplace (pyReplace raw "You are BankBot" "")
    "Answer only" "") "Customer Question" "")

/-- The failure `get_ollama_response` can raise: `requests.post` throws on
network failure or timeout (line 114), or `response.json()` throws on a
non-JSON body (line 115).  There is no `raise_for_status`, so an HTTP
error status with a JSON body is not a failure. -/
inductive BackendError where
  | failure
deriving DecidableEq, Repr

/-- Behaviour of one call to the external model service:
either the request raises, or a JSON body is returned whose `response`
field is `field` (`none` when the field is missing, in which case
line 115's `.get("response", "")` substitutes `""`). -/
inductive BackendBehavior where
  | netFailure
  | respond (field : Option String)
deriving DecidableEq, Repr

/-- `get_ollama_response` (lines 83–122), parameterised by the behaviour
of the external service for this single call.  On success the extracted
`response` field (or `""` when missing) is sanitized; a raised exception
propagates to the caller as `Except.error`. -/
def get_ollama_response (behavior : BackendBehavior) (user_question : String) :
    Except BackendError String :=
  match behavior with
  | BackendBehavior.netFailure => Except.error BackendError.failure
  | BackendBehavior.respond field =>
      let _ := full_prompt user_question
      Except.ok (sanitize (field.getD ""))

/-! ### Conversation Store (session state, `save_chat`, sidebar selection)

Python lists are reference values: `st.session_state.current_chat` is a
reference to a list object, `save_chat` archives a `.copy()` (a fresh
list object, line 77), and clicking a sidebar entry makes `current_chat`
alias the archived list object (line 142).  The embedding makes the
references explicit: `heap : Nat → List Message` maps a reference to the
list it denotes, `next_ref` is the allocator for fresh list objects. -/

/-- One chat message dictionary: `{"role": ..., "content": ..., "time": ...}`.
Roles used by the source are the strings `"user"` and `"bot"`. -/
structure Message where
  role : String
  content : String
  time : String
deriving DecidableEq, Repr

/-- One entry of `chat_history` (lines 74–78): `{"id", "title", "messages"}`,
where `messages` is a reference to a list object in the heap. -/
structure ArchivedChat where
  id : String
  title : String
  messages : Nat
deriving DecidableEq, Repr

/-- The Streamlit session state the core mutates: `chat_history`,
`current_chat` (a reference into the heap), `chat_id`, `user_input`,
plus the explicit heap of message-list objects. -/
structure AppState where
  heap : Nat → List Message
  next_ref : Nat
  chat_history : List ArchivedChat
  current_chat : Nat
  chat_id : String
  user_input : String

/-- The message list of the active session. -/
def currentMsgs (s : AppState) : List Message :=
  s.heap s.current_chat

/-- `st.session_state.current_chat.append(msg)`: in-place mutation of the
list object `current_chat` refers to. -/
def appendCurrent (s : AppState) (m : Message) : AppState :=
  { s with heap := Function.update s.heap s.current_chat (currentMsgs s ++ [m]) }

/-- `generate_chat_title` (lines 58–62): content of the first user
message truncated to 40 characters, else `"New Chat"`. -/
def generate_chat_title (messages : List Message) : String :=
  match messages.find? (fun m => m.role == "user") with
  | some m => ⟨m.content.data.take 40⟩
  | none => "New Chat"

/-- `save_chat` (lines 69–78): no-op when the current chat is empty;
otherwise insert `{id, title, messages.copy()}` at the front of
`chat_history`.  The `.copy()` allocates a fresh list object. -/
def save_chat (s : AppState) : AppState :=
  if currentMsgs s = [] then s
  else
    { s with
      heap := Function.update s.heap s.next_ref (currentMsgs s)
      next_ref := s.next_ref + 1
      chat_history :=
        ⟨s.chat_id, generate_chat_title (currentMsgs s), s.next_ref⟩ ::
          s.chat_history }

/-- `reset_chat` (lines 64–67): fresh empty list object, fresh id, clear
the input box. -/
def reset_chat (fresh_id : String) (s : AppState) : AppState :=
  { s with
    heap := Function.update s.heap s.next_ref []
    current_chat := s.next_ref
    next_ref := s.next_ref + 1
    chat_id := fresh_id
    user_input := "" }

/-- Failure of selecting an archived chat by an identifier that is not in
the archive. -/
inductive NotFoundError where
  | notFound
deriving DecidableEq, Repr

/-- Sidebar chat selection by identifier (lines 139–142): the loop renders
one button per `chat_history` entry, keyed by its `id`; clicking the entry
with identifier `id` sets `chat_id` and makes `current_chat` alias the
stored `messages` list object.  Modelled from the spec: for an identifier
with no matching entry no button exists, so no selection can occur — the
spec's `loadFromArchive` surfaces this as `NotFoundError`, with the state
unchanged. -/
def select_chat (s : AppState) (id : String) : AppState × Option NotFoundError :=
  match s.chat_history.find? (fun c => c.id == id) with
  | some c => ({ s with chat_id := c.id, current_chat := c.messages }, none)
  | none => (s, some NotFoundError.notFound)

/-! ### Session Controller (`send_message`, lines 193–238) -/

/-- The fixed greeting reply template (lines 207–214). -/
def greeting_reply : String :=
  "Hello 👋\n\n" ++
  "I’m **BankBot**, your banking assistant.\n\n" ++
  "You can ask me about:\n" ++
  "• Opening an account\n" ++
  "• Loans & EMI\n" ++
  "• Cards & ATM services"

/-- The fixed off-topic reply template (lines 218–225). -/
def offtopic_reply : String :=
  "I’m here to help with **banking-related queries only**.\n\n" ++
  "Please ask about:\n" ++
  "• Accounts\n" ++
  "• Loans\n" ++
  "• Cards\n" ++
  "• ATM services"

/-- The reply `send_message` generates for a trimmed non-empty input,
given the backend's `response` field (used only on the banking path). -/
def generate_reply (field : Option String) (user_text : String) : String :=
  if is_greeting user_text then greeting_reply
  else if ¬ is_banking_related user_text then offtopic_reply
  else sanitize (field.getD "")

/-- Result of one `send_message` invocation: the session state afterwards,
the exception that escaped (if any), and how many backend calls were
made. -/
structure TurnResult where
  state : AppState
  raised : Option BackendError
  backend_calls : Nat

/-- `send_message` (lines 193–238), parameterised by the backend behaviour
and by the two wall-clock readings (lines 202 and 235).  Empty trimmed
input returns early (line 196).  Otherwise the user message is appended
first; on the banking path the backend is called, and a raised
`BackendError` escapes with the user message already appended and the
bot append and input reset skipped. -/
def send_message (behavior : BackendBehavior) (t1 t2 : String)
    (s : AppState) : TurnResult :=
  let user_text := pyStrip s.user_input
  if user_text = "" then ⟨s, none, 0⟩
  else
    let s1 := appendCurrent s ⟨"user", user_text, t1⟩
    if is_greeting user_text then
      ⟨{ appendCurrent s1 ⟨"bot", greeting_reply, t2⟩ with user_input := "" },
        none, 0⟩
    else if ¬ is_banking_related user_text then
      ⟨{ appendCurrent s1 ⟨"bot", offtopic_reply, t2⟩ with user_input := "" },
        none, 0⟩
    else
      match get_ollama_response behavior user_text with
      | Except.error e => ⟨s1, some e, 1⟩
      | Except.ok reply =>
          ⟨{ appendCurrent s1 ⟨"bot", reply, t2⟩ with user_input := "" },
            none, 1⟩

example : is_greeting "hi bank" = true := by decide
example : is_banking_related "hi bank" = true := by decide
example : classify "hi bank" = Classification.Greeting := by decide
example : classify "" = Classification.OffTopic := by decide
example : classify "what is my balance" = Classification.BankingRelated := by decide
example : pyStrip "   " = "" := by decide
example : pyReplace "aaa" "aa" "b" = "ba" := by decide
example : sanitize "You are BankBot, your balance is $500" = ", your balance is $500" := by decide
example : sanitize "  hello  " = "hello" := by decide

/-! ### Concrete states used by witnesses and counterexamples -/

/-- An initial-style state whose pending input is `"balance"`. -/
def balanceState : AppState :=
  ⟨fun _ => [], 1, [], 0, "id-0", "balance"⟩

/-- An initial-style state with an empty active transcript and no pending
input. -/
def emptyState : AppState :=
  ⟨fun _ => [], 1, [], 0, "id-e", ""⟩

/-- A state whose active transcript already holds one user message. -/
def savedState : AppState :=
  ⟨fun _ => [⟨"user", "loan emi", "09:00"⟩], 1, [], 0, "id-s", ""⟩

/-- A state whose pending input is whitespace only. -/
def wsState : AppState :=
  ⟨fun _ => [], 1, [], 0, "id-w", "   "⟩

/-- A state whose pending input is a banking question about cards. -/
def cardState : AppState :=
  ⟨fun _ => [], 1, [], 0, "id-c", " card services? "⟩

/-- A state whose pending input asks about EMI. -/
def emiState : AppState :=
  ⟨fun _ => [], 1, [], 0, "id-m", "emi info"⟩

/-- A state with one archived chat whose identifier is `"id-a"`. -/
def archState : AppState :=
  ⟨fun _ => [], 2, [⟨"id-a", "t", 1⟩], 0, "id-x", ""⟩

/-! ### Helper lemmas -/

/-- Appending to the active list changes exactly the active heap cell. -/
theorem currentMsgs_appendCurrent (s : AppState) (m : Message) :
    currentMsgs (appendCurrent s m) = currentMsgs s ++ [m] := by
  simp [currentMsgs, appendCurrent]

/-- Appending to the active list leaves every other heap cell alone. -/
theorem heap_appendCurrent_ne (s : AppState) (m : Message) (j : Nat)
    (hj : j ≠ s.current_chat) : (appendCurrent s m).heap j = s.heap j := by
  simp [appendCurrent, Function.update_noteq hj]

theorem appendCurrent_current_chat (s : AppState) (m : Message) :
    (appendCurrent s m).current_chat = s.current_chat := rfl

theorem appendCurrent_chat_history (s : AppState) (m : Message) :
    (appendCurrent s m).chat_history = s.chat_history := rfl

/-- Unfolding of `save_chat` on a non-empty current chat. -/
theorem save_chat_nonempty (s : AppState) (hne : currentMsgs s ≠ []) :
    save_chat s =
      { s with
        heap := Function.update s.heap s.next_ref (currentMsgs s)
        next_ref := s.next_ref + 1
        chat_history :=
          ⟨s.chat_id, generate_chat_title (currentMsgs s), s.next_ref⟩ ::
            s.chat_history } := by
  simp [save_chat, hne]

/-- The head of the archive is found when its identifier is searched. -/
theorem find_id_cons (id title : String) (r : Nat)
    (rest : List ArchivedChat) :
    List.find? (fun c => c.id == id) (⟨id, title, r⟩ :: rest) =
      some ⟨id, title, r⟩ := by
  simp [List.find?]

/-- The empty raw completion sanitizes to the empty string. -/
theorem sanitize_empty : sanitize "" = "" := by decide

/-! ### Claim theorems -/

/-- C3: every text that contains (case-insensitively, as a substring) at
least one greeting keyword and at least one banking term classifies as
`Greeting`: the greeting check takes precedence over the banking-term
check. -/
theorem classify_greeting_precedence (text : String)
    (hg : ∃ w ∈ greetings, containsSub w (pyLower text) = true)
    (_hb : ∃ t ∈ banking_terms, containsSub t (pyLower text) = true) :
    classify text = Classification.Greeting := by
  have h : is_greeting text = true := by
    unfold is_greeting
    rw [List.any_eq_true]
    obtain ⟨w, hw, hsub⟩ := hg
    exact ⟨w, hw, hsub⟩
  simp [classify, h]

/-- C3 witness: `"hi bank"` contains the greeting keyword `"hi"` and the
banking term `"bank"`, and classifies as `Greeting`. -/
theorem classify_greeting_precedence_witness :
    classify "hi bank" = Classification.Greeting :=
  classify_greeting_precedence "hi bank" (by decide) (by decide)

/-- C4: every text containing (case-insensitively, as a substring) no
greeting keyword and no banking term classifies as `OffTopic`. -/
theorem classify_offtopic_of_no_keyword (text : String)
    (hg : ∀ w ∈ greetings, containsSub w (pyLower text) = false)
    (hb : ∀ t ∈ banking_terms, containsSub t (pyLower text) = false) :
    classify text = Classification.OffTopic := by
  have h1 : is_greeting text = false := by
    unfold is_greeting
    rw [List.any_eq_false]
    intro w hw
    simp [hg w hw]
  have h2 : is_banking_related text = false := by
    unfold is_banking_related
    rw [List.any_eq_false]
    intro t ht
    simp [hb t ht]
  simp [classify, h1, h2]

/-- C4 witness: the empty string contains no keyword and classifies as
`OffTopic`. -/
theorem classify_offtopic_of_no_keyword_witness :
    classify "" = Classification.OffTopic :=
  classify_offtopic_of_no_keyword "" (by decide) (by decide)

/-- C2 counterexample: the raw response
`"You are BankBot, your balance is $500"` does NOT sanitize to
`"your balance is $500"` — the leading comma and space survive, since
only the literal fragment is removed and stripping removes whitespace
only at the ends. -/
theorem sanitize_example_cex :
    sanitize "You are BankBot, your balance is $500" ≠
      "your balance is $500" := by
  decide

/-- C2 amended: `sanitize` removes the three literal instruction
fragments by plain substring replacement (in the order of
`blocked_phrases`) and strips leading/trailing whitespace — it agrees
with `sanitize_spec`, the direct transcription of the spec's words — and
the raw response `"You are BankBot, your balance is $500"` sanitizes to
`", your balance is $500"` (the comma before `your` is not whitespace, so
it is kept). -/
theorem sanitize_substring_removal :
    (∀ raw, sanitize raw = sanitize_spec raw) ∧
    sanitize "You are BankBot, your balance is $500" =
      ", your balance is $500" :=
  ⟨fun _ => rfl, by decide⟩

/-- C6: a submission whose trimmed text is empty is a silent no-op: the
state (transcript included) is unchanged, nothing is raised, and the
backend adapter is never called. -/
theorem send_message_empty_input_noop (behavior : BackendBehavior)
    (t1 t2 : String) (s : AppState) (h : pyStrip s.user_input = "") :
    send_message behavior t1 t2 s = ⟨s, none, 0⟩ := by
  unfold send_message
  simp [h]

/-- C6 witness: submitting `"   "` (whitespace only) changes nothing and
makes no backend call, even when the backend would fail. -/
theorem send_message_empty_input_noop_witness :
    send_message BackendBehavior.netFailure "10:00" "10:01" wsState =
      ⟨wsState, none, 0⟩ :=
  send_message_empty_input_noop BackendBehavior.netFailure "10:00" "10:01"
    wsState (by decide)

/-- C5: whenever the trimmed input is non-empty and the backend call (if
any) returns a response, the turn appends exactly two messages to the
active transcript — first the user message carrying the trimmed text,
then the bot message carrying the generated reply — and nothing else
changes: prior transcript entries are preserved in order, every other
heap cell is untouched, and the archive and active reference are
unchanged. -/
theorem send_message_appends_two_messages (field : Option String)
    (t1 t2 : String) (s : AppState) (hne : pyStrip s.user_input ≠ "") :
    (send_message (BackendBehavior.respond field) t1 t2 s).raised = none ∧
    currentMsgs (send_message (BackendBehavior.respond field) t1 t2 s).state =
      currentMsgs s ++ [⟨"user", pyStrip s.user_input, t1⟩,
        ⟨"bot", generate_reply field (pyStrip s.user_input), t2⟩] ∧
    (send_message (BackendBehavior.respond field) t1 t2 s).state.chat_history
      = s.chat_history ∧
    (send_message (BackendBehavior.respond field) t1 t2 s).state.current_chat
      = s.current_chat ∧
    ∀ j, j ≠ s.current_chat →
      (send_message (BackendBehavior.respond field) t1 t2 s).state.heap j
        = s.heap j := by
  unfold send_message get_ollama_response generate_reply
  by_cases hg : is_greeting (pyStrip s.user_input) <;>
    by_cases hb : is_banking_related (pyStrip s.user_input) <;>
      simp [hne, hg, hb, currentMsgs, appendCurrent,
        Function.update_noteq, List.append_assoc] <;>
        intro j hj <;> simp [Function.update_noteq hj]

/-- C5 witness: submitting `" card services? "` with a responding backend
appends exactly the user message and the bot reply. -/
theorem send_message_appends_two_messages_witness :
    (send_message (BackendBehavior.respond (some "Sure")) "11:00" "11:01"
        cardState).raised = none ∧
    currentMsgs (send_message (BackendBehavior.respond (some "Sure")) "11:00"
        "11:01" cardState).state =
      currentMsgs cardState ++ [⟨"user", pyStrip cardState.user_input, "11:00"⟩,
        ⟨"bot", generate_reply (some "Sure") (pyStrip cardState.user_input),
          "11:01"⟩] ∧
    (send_message (BackendBehavior.respond (some "Sure")) "11:00" "11:01"
        cardState).state.chat_history = cardState.chat_history ∧
    (send_message (BackendBehavior.respond (some "Sure")) "11:00" "11:01"
        cardState).state.current_chat = cardState.current_chat ∧
    ∀ j, j ≠ cardState.current_chat →
      (send_message (BackendBehavior.respond (some "Sure")) "11:00" "11:01"
        cardState).state.heap j = cardState.heap j :=
  send_message_appends_two_messages (some "Sure") "11:00" "11:01" cardState
    (by decide)

/-- C7: archiving a session with an empty transcript leaves everything
unchanged, and archiving a non-empty session pushes exactly one entry —
`{id, derived title, copied transcript}` — onto the front of the archive,
growing it by exactly one. -/
theorem save_chat_archive_spec (s : AppState) :
    (currentMsgs s = [] → save_chat s = s) ∧
    (currentMsgs s ≠ [] →
      (save_chat s).chat_history =
        ⟨s.chat_id, generate_chat_title (currentMsgs s), s.next_ref⟩ ::
          s.chat_history ∧
      (save_chat s).chat_history.length = s.chat_history.length + 1) := by
  constructor
  · intro h
    simp [save_chat, h]
  · intro h
    simp [save_chat, h]

/-- C7 witness: archiving an empty session is the identity on a concrete
state, and archiving a concrete one-message session puts the new entry at
the front and grows the archive from 0 to 1. -/
theorem save_chat_archive_spec_witness :
    save_chat emptyState = emptyState ∧
    (save_chat savedState).chat_history =
      ⟨savedState.chat_id, generate_chat_title (currentMsgs savedState),
        savedState.next_ref⟩ :: savedState.chat_history ∧
    (save_chat savedState).chat_history.length =
      savedState.chat_history.length + 1 :=
  ⟨(save_chat_archive_spec emptyState).1 (by decide),
    (save_chat_archive_spec savedState).2 (by decide)⟩

/-- C9: selecting a chat by an identifier that matches no archived entry
fails with `NotFoundError` and returns the state unchanged. -/
theorem select_chat_not_found (s : AppState) (id : String)
    (h : ∀ c ∈ s.chat_history, c.id ≠ id) :
    select_chat s id = (s, some NotFoundError.notFound) := by
  have hf : s.chat_history.find? (fun c => c.id == id) = none := by
    rw [List.find?_eq_none]
    intro c hc
    simp [h c hc]
  simp [select_chat, hf]

/-- C9 witness: selecting the never-archived identifier `"id-b"` in a
state whose only archived chat is `"id-a"` fails with `NotFoundError` and
leaves the state unchanged. -/
theorem select_chat_not_found_witness :
    select_chat archState "id-b" = (archState, some NotFoundError.notFound) :=
  select_chat_not_found archState "id-b" (by decide)

/-- C8: after archiving a non-empty session, selecting its identifier
succeeds and yields the transcript as it was at archive time; appending a
message to the loaded session and selecting the same identifier again
shows the appended message — the loaded transcript and the archived entry
are one shared list object. -/
theorem archive_load_shared_transcript (s : AppState) (m : Message)
    (hne : currentMsgs s ≠ []) :
    (select_chat (save_chat s) s.chat_id).2 = none ∧
    currentMsgs (select_chat (save_chat s) s.chat_id).1 = currentMsgs s ∧
    (select_chat (appendCurrent (select_chat (save_chat s) s.chat_id).1 m)
      s.chat_id).2 = none ∧
    currentMsgs (select_chat (appendCurrent
      (select_chat (save_chat s) s.chat_id).1 m) s.chat_id).1
      = currentMsgs s ++ [m] := by
  rw [save_chat_nonempty s hne]
  simp [select_chat, find_id_cons, appendCurrent, currentMsgs]

/-- C8 witness: archiving the concrete one-message session, loading it by
its identifier, appending a bot message and loading it again shows the
original message followed by the appended one. -/
theorem archive_load_shared_transcript_witness :
    (select_chat (save_chat savedState) savedState.chat_id).2 = none ∧
    currentMsgs (select_chat (save_chat savedState) savedState.chat_id).1 =
      currentMsgs savedState ∧
    (select_chat (appendCurrent
      (select_chat (save_chat savedState) savedState.chat_id).1
      ⟨"bot", "ok", "09:01"⟩) savedState.chat_id).2 = none ∧
    currentMsgs (select_chat (appendCurrent
      (select_chat (save_chat savedState) savedState.chat_id).1
      ⟨"bot", "ok", "09:01"⟩) savedState.chat_id).1 =
      currentMsgs savedState ++ [⟨"bot", "ok", "09:01"⟩] :=
  archive_load_shared_transcript savedState ⟨"bot", "ok", "09:01"⟩ (by decide)

/-- C1 counterexample: submitting the banking question `"balance"` while
the backend raises does not complete the turn with an apology message —
the exception escapes `send_message` and the transcript holds only the
user message, with no assistant message at all. -/
theorem backend_failure_not_recovered_cex :
    (send_message BackendBehavior.netFailure "10:00" "10:01"
      balanceState).raised = some BackendError.failure ∧
    currentMsgs (send_message BackendBehavior.netFailure "10:00" "10:01"
      balanceState).state = [⟨"user", "balance", "10:00"⟩] :=
  ⟨by decide, by decide⟩

/-- C1 amended: on a banking-related submission, a raised backend failure
propagates uncaught out of `send_message` — the turn does not complete,
only the user message was appended, and the input box is not cleared —
while a returned response that merely lacks the `response` field completes
the turn with the assistant content equal to the empty string, not an
apology. -/
theorem backend_failure_propagates (t1 t2 : String) (s : AppState)
    (hne : pyStrip s.user_input ≠ "")
    (hg : is_greeting (pyStrip s.user_input) = false)
    (hb : is_banking_related (pyStrip s.user_input) = true) :
    (send_message BackendBehavior.netFailure t1 t2 s).raised
      = some BackendError.failure ∧
    currentMsgs (send_message BackendBehavior.netFailure t1 t2 s).state
      = currentMsgs s ++ [⟨"user", pyStrip s.user_input, t1⟩] ∧
    (send_message BackendBehavior.netFailure t1 t2 s).state.user_input
      = s.user_input ∧
    (send_message (BackendBehavior.respond none) t1 t2 s).raised = none ∧
    currentMsgs (send_message (BackendBehavior.respond none) t1 t2 s).state
      = currentMsgs s ++ [⟨"user", pyStrip s.user_input, t1⟩,
          ⟨"bot", "", t2⟩] := by
  unfold send_message get_ollama_response
  simp [hne, hg, hb, currentMsgs, appendCurrent, sanitize_empty]

/-- C1 amended witness: the concrete banking question `"balance"` under a
raising backend leaves only the user message, and under a field-less
response appends an empty bot message. -/
theorem backend_failure_propagates_witness :
    (send_message BackendBehavior.netFailure "10:02" "10:03"
      balanceState).raised = some BackendError.failure ∧
    currentMsgs (send_message BackendBehavior.netFailure "10:02" "10:03"
      balanceState).state =
      currentMsgs balanceState ++
        [⟨"user", pyStrip balanceState.user_input, "10:02"⟩] ∧
    (send_message BackendBehavior.netFailure "10:02" "10:03"
      balanceState).state.user_input = balanceState.user_input ∧
    (send_message (BackendBehavior.respond none) "10:02" "10:03"
      balanceState).raised = none ∧
    currentMsgs (send_message (BackendBehavior.respond none) "10:02" "10:03"
      balanceState).state =
      currentMsgs balanceState ++
        [⟨"user", pyStrip balanceState.user_input, "10:02"⟩,
          ⟨"bot", "", "10:03"⟩] :=
  backend_failure_propagates "10:02" "10:03" balanceState
    (by decide) (by decide) (by decide)

/-- C10: a banking-related turn is not atomic under backend failure: the
backend is called exactly once, the exception escapes, and the transcript
retains the already-appended user message with no assistant message after
it. -/
theorem send_message_not_atomic_on_failure (t1 t2 : String) (s : AppState)
    (hne : pyStrip s.user_input ≠ "")
    (hg : is_greeting (pyStrip s.user_input) = false)
    (hb : is_banking_related (pyStrip s.user_input) = true) :
    (send_message BackendBehavior.netFailure t1 t2 s).backend_calls = 1 ∧
    (send_message BackendBehavior.netFailure t1 t2 s).raised ≠ none ∧
    currentMsgs (send_message BackendBehavior.netFailure t1 t2 s).state
      = currentMsgs s ++ [⟨"user", pyStrip s.user_input, t1⟩] := by
  unfold send_message get_ollama_response
  simp [hne, hg, hb, currentMsgs, appendCurrent]

/-- C10 witness: submitting `"emi info"` under a raising backend calls the
backend once, raises, and leaves exactly the user message appended. -/
theorem send_message_not_atomic_on_failure_witness :
    (send_message BackendBehavior.netFailure "12:00" "12:01"
      emiState).backend_calls = 1 ∧
    (send_message BackendBehavior.netFailure "12:00" "12:01"
      emiState).raised ≠ none ∧
    currentMsgs (send_message BackendBehavior.netFailure "12:00" "12:01"
      emiState).state =
      currentMsgs emiState ++
        [⟨"user", pyStrip emiState.user_input, "12:00"⟩] :=
  send_message_not_atomic_on_failure "12:00" "12:01" emiState
    (by decide) (by decide) (by decide)

end BankBot
